import Mathlib

/-!
Verification of the BMP conversion module (`src/format_bmp.rs`) of the
`image-convert` library.

The module under verification is the function `to_bmp` together with its
configuration type `BMPConfig`.  `to_bmp` is a linear pipeline that drives an
external imaging engine (MagickWand): it loads the input, optionally composites
a background color and removes the alpha channel, resizes and sharpens raster
images, strips metadata profiles, fixes quality/interlace/format, and finally
dispatches the result to an output resource (path / byte buffer / native
handle).

The imaging engine, the loader `fetch_magic_wand` and the resolver
`compute_output_size_sharpen` live outside this file's source: they are
modelled as an abstract `Engine` record of (possibly failing) operations over
an opaque wand type.  Every engine operation invoked by the pipeline is also
recorded in a trace of `EngineCall`s, so that properties of the form "this
engine operation is (never) issued" can be stated and proved.
-/

set_option autoImplicit false

/-- Engine errors are plain strings, as in the Rust source
(`Result<(), &'static str>`). -/
abbrev Err := String

/-- Modelled from the spec: a `Named Color` is an enumerated symbolic color;
only its textual name (`as_str` in the source) is ever consumed by this
module, so the model carries exactly that name.  (The `ColorName` enum itself
is repository code outside `src/`.) -/
structure ColorName where
  name : String
deriving DecidableEq

/-- The textual name of a named color, as passed to the engine. -/
def ColorName.as_str (c : ColorName) : String :=
  c.name

/-- The output config of a BMP image (struct `BMPConfig` in the source).
`width`/`height` are `u16` in the source; no arithmetic is performed on them
in this module, so they are embedded as `Nat`.  `sharpen` is an `f64` used
only as an opaque pass-through value here, embedded as `ℚ` (the values the
module itself produces, `-1` and `0`, are exact). -/
structure BMPConfig where
  width : Nat
  height : Nat
  shrink_only : Bool
  sharpen : ℚ
  background_color : Option ColorName
deriving DecidableEq

/-- Constructor `BMPConfig::new()`: the default configuration. -/
def BMPConfig.new : BMPConfig :=
  { width := 0
    height := 0
    shrink_only := true
    sharpen := -1
    background_color := none }

/-- Trait impl `Default for BMPConfig`: delegates to `BMPConfig::new()`. -/
def BMPConfig.default : BMPConfig :=
  BMPConfig.new

/-- Accessor `ImageConfig::get_width` for `BMPConfig`. -/
def BMPConfig.get_width (c : BMPConfig) : Nat :=
  c.width

/-- Accessor `ImageConfig::get_height` for `BMPConfig`. -/
def BMPConfig.get_height (c : BMPConfig) : Nat :=
  c.height

/-- Accessor `ImageConfig::get_sharpen` for `BMPConfig`. -/
def BMPConfig.get_sharpen (c : BMPConfig) : ℚ :=
  c.sharpen

/-- Accessor `ImageConfig::is_shrink_only` for `BMPConfig`. -/
def BMPConfig.is_shrink_only (c : BMPConfig) : Bool :=
  c.shrink_only

/-- The resampling filter passed to `resize_image`
(`bindings::FilterType_LanczosFilter` in the source). -/
inductive FilterType where
  | LanczosFilter
deriving DecidableEq

/-- The alpha-channel option passed to `set_image_alpha_channel`
(`bindings::AlphaChannelOption_RemoveAlphaChannel` in the source). -/
inductive AlphaChannelOption where
  | RemoveAlphaChannel
deriving DecidableEq

/-- Modelled from the spec: the library's `InterlaceType` enum (repository code
outside `src/`), passed to `set_interlace_scheme`; the numeric `ordinal` cast
of the source is abstracted away, the engine receives the scheme itself. -/
inductive InterlaceType where
  | NoInterlace
  | LineInterlace
  | PlaneInterlace
deriving DecidableEq

/-- Modelled from the spec: the library's `enum ImageResource` (repository code
outside `src/`) — an input or output resource: a filesystem path, a
caller-owned byte buffer, or a native engine handle.  `W` is the opaque wand
(engine handle) type. -/
inductive ImageResource (W : Type) where
  | Path : String → ImageResource W
  | Data : List Nat → ImageResource W
  | MagickWand : W → ImageResource W
deriving DecidableEq

/-- One engine operation issued by the pipeline.  The trace of these calls is
what `to_bmp` is observed through. -/
inductive EngineCall where
  | fetch
  | setColor (color : String)
  | setBackground
  | removeAlpha
  | resize (w h : Nat) (filter : FilterType)
  | sharpen (radius amount : ℚ)
  | profileStrip
  | setQuality (q : Nat)
  | setInterlace (i : InterlaceType)
  | setFormat (fmt : String)
  | writePath (p : String)
  | writeBlob (fmt : String)
deriving DecidableEq

/-- Is this call one of the two serializing write operations? -/
def EngineCall.isWriteCall : EngineCall → Bool
  | .writePath _ => true
  | .writeBlob _ => true
  | _ => false

/-- Is this call a resize? -/
def EngineCall.isResizeCall : EngineCall → Bool
  | .resize _ _ _ => true
  | _ => false

/-- Is this call a sharpen? -/
def EngineCall.isSharpenCall : EngineCall → Bool
  | .sharpen _ _ => true
  | _ => false

/-- Is this call part of the background-compositing step? -/
def EngineCall.isBackgroundCall : EngineCall → Bool
  | .setColor _ => true
  | .setBackground => true
  | .removeAlpha => true
  | _ => false

/-- Modelled from the spec: the collaborators of `to_bmp`, over an opaque
pixel-wand type `P` and an opaque image-wand type `W` — the external imaging
engine's fallible operations, plus the loader `fetch_magic_wand` and the pure
resolver `compute_output_size_sharpen` (repository code outside `src/`,
specified only at their interface).  Each operation either returns an updated
wand or an engine-reported error string. -/
structure Engine (P W : Type) where
  fetch_magic_wand : ImageResource W → BMPConfig → Except Err (W × Bool)
  new_pixel_wand : P
  set_color : P → String → Except Err P
  set_image_background_color : W → P → Except Err W
  set_image_alpha_channel : W → AlphaChannelOption → Except Err W
  compute_output_size_sharpen : W → BMPConfig → Nat × Nat × ℚ
  resize_image : W → Nat → Nat → FilterType → W
  sharpen_image : W → ℚ → ℚ → Except Err W
  profile_image : W → String → Option (List Nat) → Except Err W
  set_image_compression_quality : W → Nat → Except Err W
  set_interlace_scheme : W → InterlaceType → Except Err W
  set_image_format : W → String → Except Err W
  write_image : W → String → Except Err Unit
  write_image_blob : W → String → Except Err (List Nat)

/-- Modelled from the spec: the external case-insensitive suffix check
(`ends_with_caseless_ascii` of the `starts-ends-with-caseless` collaborator):
an ASCII case-insensitive exact suffix match. -/
def ends_with_caseless_ascii (s suf : String) : Bool :=
  (suf.data.map Char.toLower).isSuffixOf (s.data.map Char.toLower)

/-- The background-compositing block of `to_bmp` (source lines 76–81): if a
background color is configured, create a pixel wand, set it to the named
color, set it as the image background color and remove the alpha channel;
otherwise do nothing.  Returns the updated wand (or the first error) and the
list of engine calls issued. -/
def bgStage {P W : Type} (E : Engine P W) (config : BMPConfig) (mw : W) :
    Except Err W × List EngineCall :=
  match config.background_color with
  | none => (.ok mw, [])
  | some background_color =>
    match E.set_color E.new_pixel_wand background_color.as_str with
    | .error e => (.error e, [.setColor background_color.as_str])
    | .ok pw =>
      match E.set_image_background_color mw pw with
      | .error e => (.error e, [.setColor background_color.as_str, .setBackground])
      | .ok mw1 =>
        match E.set_image_alpha_channel mw1 .RemoveAlphaChannel with
        | .error e =>
          (.error e, [.setColor background_color.as_str, .setBackground, .removeAlpha])
        | .ok mw2 =>
          (.ok mw2, [.setColor background_color.as_str, .setBackground, .removeAlpha])

/-- The conditional resize+sharpen block of `to_bmp` (source lines 83–89): for
a non-vector image, compute the output size and sharpen amount, resize with
the Lanczos filter (`resize_image` is infallible in the source — no `?`), and
sharpen with radius `0` at the computed amount. -/
def resizeStage {P W : Type} (E : Engine P W) (config : BMPConfig) (vector : Bool) (mw : W) :
    Except Err W × List EngineCall :=
  if !vector then
    match E.compute_output_size_sharpen mw config with
    | (width, height, sharpen) =>
      match E.sharpen_image (E.resize_image mw width height .LanczosFilter) 0 sharpen with
      | .error e =>
        (.error e, [.resize width height .LanczosFilter, .sharpen 0 sharpen])
      | .ok mw2 =>
        (.ok mw2, [.resize width height .LanczosFilter, .sharpen 0 sharpen])
  else
    (.ok mw, [])

/-- The unconditional post-resize block of `to_bmp` (source lines 91–97):
strip all profiles, set compression quality 100, set line interlace, set the
image format tag to "BMP". -/
def postStage {P W : Type} (E : Engine P W) (mw : W) :
    Except Err W × List EngineCall :=
  match E.profile_image mw "*" none with
  | .error e => (.error e, [.profileStrip])
  | .ok mw1 =>
    match E.set_image_compression_quality mw1 100 with
    | .error e => (.error e, [.profileStrip, .setQuality 100])
    | .ok mw2 =>
      match E.set_interlace_scheme mw2 .LineInterlace with
      | .error e =>
        (.error e, [.profileStrip, .setQuality 100, .setInterlace .LineInterlace])
      | .ok mw3 =>
        match E.set_image_format mw3 "BMP" with
        | .error e =>
          (.error e,
            [.profileStrip, .setQuality 100, .setInterlace .LineInterlace, .setFormat "BMP"])
        | .ok mw4 =>
          (.ok mw4,
            [.profileStrip, .setQuality 100, .setInterlace .LineInterlace, .setFormat "BMP"])

/-- The whole processing part of `to_bmp` before output dispatch (source lines
74–97): load, background compositing, conditional resize+sharpen, and the
post-resize settings, aborting at the first error. -/
def to_bmp_process {P W : Type} (E : Engine P W) (input : ImageResource W)
    (config : BMPConfig) : Except Err W × List EngineCall :=
  match E.fetch_magic_wand input config with
  | .error e => (.error e, [.fetch])
  | .ok (mw, vector) =>
    match bgStage E config mw with
    | (.error e, t1) => (.error e, .fetch :: t1)
    | (.ok mw1, t1) =>
      match resizeStage E config vector mw1 with
      | (.error e, t2) => (.error e, .fetch :: (t1 ++ t2))
      | (.ok mw2, t2) =>
        match postStage E mw2 with
        | (.error e, t3) => (.error e, .fetch :: (t1 ++ t2 ++ t3))
        | (.ok mw3, t3) => (.ok mw3, .fetch :: (t1 ++ t2 ++ t3))

/-- The output-dispatch block of `to_bmp` (source lines 99–114): for a `Path`
target, reject a non-`.bmp` extension before any write, otherwise write to the
path; for a `Data` target, encode to a blob and append it to the caller's
buffer; for a `MagickWand` target, overwrite the caller's handle slot with the
processed wand.  Returns the result, the final state of the output resource,
and the engine calls issued. -/
def dispatchStage {P W : Type} (E : Engine P W) (output : ImageResource W) (mw : W) :
    Except Err Unit × ImageResource W × List EngineCall :=
  match output with
  | .Path p =>
    if !ends_with_caseless_ascii p ".bmp" then
      (.error "The file extension name is not bmp.", .Path p, [])
    else
      match E.write_image mw p with
      | .error e => (.error e, .Path p, [.writePath p])
      | .ok _ => (.ok (), .Path p, [.writePath p])
  | .Data b =>
    match E.write_image_blob mw "BMP" with
    | .error e => (.error e, .Data b, [.writeBlob "BMP"])
    | .ok temp => (.ok (), .Data (b ++ temp), [.writeBlob "BMP"])
  | .MagickWand _ => (.ok (), .MagickWand mw, [])

/-- Function `to_bmp` (source lines 69–117): the full conversion pipeline.  Returns the
`Result` of the Rust function, the final state of the caller's output
resource (unchanged whenever an error is returned before dispatch touches
it), and the full trace of engine calls issued. -/
def to_bmp {P W : Type} (E : Engine P W) (output input : ImageResource W)
    (config : BMPConfig) : Except Err Unit × ImageResource W × List EngineCall :=
  match to_bmp_process E input config with
  | (.error e, t) => (.error e, output, t)
  | (.ok mw, t) =>
    match dispatchStage E output mw with
    | (r, output2, t2) => (r, output2, t ++ t2)

/-- The `Result` value returned by `to_bmp`. -/
def to_bmp_result {P W : Type} (E : Engine P W) (output input : ImageResource W)
    (config : BMPConfig) : Except Err Unit :=
  (to_bmp E output input config).1

/-- The final state of the caller's output resource after `to_bmp`. -/
def to_bmp_output {P W : Type} (E : Engine P W) (output input : ImageResource W)
    (config : BMPConfig) : ImageResource W :=
  (to_bmp E output input config).2.1

/-- The trace of engine calls issued by `to_bmp`. -/
def to_bmp_trace {P W : Type} (E : Engine P W) (output input : ImageResource W)
    (config : BMPConfig) : List EngineCall :=
  (to_bmp E output input config).2.2

/-- The four post-resize settings calls, in pipeline order. -/
def postCalls : List EngineCall :=
  [.profileStrip, .setQuality 100, .setInterlace .LineInterlace, .setFormat "BMP"]

/-! ### Stage-level trace lemmas -/

theorem bgStage_calls {P W : Type} (E : Engine P W) (config : BMPConfig) (mw : W) :
    ∀ c ∈ (bgStage E config mw).2, c.isBackgroundCall = true := by
  unfold bgStage
  split
  · simp
  · split
    · simp [EngineCall.isBackgroundCall]
    · split
      · simp [EngineCall.isBackgroundCall]
      · split <;> simp [EngineCall.isBackgroundCall]

theorem resizeStage_calls {P W : Type} (E : Engine P W) (config : BMPConfig)
    (vector : Bool) (mw : W) :
    ∀ c ∈ (resizeStage E config vector mw).2,
      c.isResizeCall = true ∨ c.isSharpenCall = true := by
  unfold resizeStage
  split
  · split
    · split <;>
        simp [EngineCall.isResizeCall, EngineCall.isSharpenCall]
  · simp

theorem postStage_calls {P W : Type} (E : Engine P W) (mw : W) :
    ∀ c ∈ (postStage E mw).2, c ∈ postCalls := by
  unfold postStage
  split
  · simp [postCalls]
  · split
    · simp [postCalls]
    · split
      · simp [postCalls]
      · split <;> simp [postCalls]

theorem bgStage_none {P W : Type} (E : Engine P W) (config : BMPConfig) (mw : W)
    (h : config.background_color = none) : bgStage E config mw = (.ok mw, []) := by
  simp [bgStage, h]

theorem resizeStage_vector {P W : Type} (E : Engine P W) (config : BMPConfig) (mw : W) :
    resizeStage E config true mw = (.ok mw, []) := by
  simp [resizeStage]

theorem resizeStage_raster_trace {P W : Type} (E : Engine P W) (config : BMPConfig)
    (mw : W) :
    (resizeStage E config false mw).2 =
      [.resize (E.compute_output_size_sharpen mw config).1
         (E.compute_output_size_sharpen mw config).2.1 .LanczosFilter,
       .sharpen 0 (E.compute_output_size_sharpen mw config).2.2] := by
  unfold resizeStage
  split
  · split
    next w h s heq =>
      split <;> simp [heq]
  · simp_all

theorem dispatchStage_calls {P W : Type} (E : Engine P W) (output : ImageResource W)
    (mw : W) :
    ∀ c ∈ (dispatchStage E output mw).2.2, c.isWriteCall = true := by
  unfold dispatchStage
  split
  · split
    · simp
    · split <;> simp [EngineCall.isWriteCall]
  · split <;> simp [EngineCall.isWriteCall]
  · simp

theorem to_bmp_process_calls {P W : Type} (E : Engine P W) (input : ImageResource W)
    (config : BMPConfig) :
    ∀ c ∈ (to_bmp_process E input config).2,
      c = .fetch ∨ c.isBackgroundCall = true ∨ c.isResizeCall = true ∨
        c.isSharpenCall = true ∨ c ∈ postCalls := by
  unfold to_bmp_process
  split
  next e hf => simp
  next mw vector hf =>
    split
    next e t1 heq =>
      intro c hc
      rcases List.mem_cons.mp hc with rfl | hc
      · exact Or.inl rfl
      · exact Or.inr (Or.inl (bgStage_calls E config mw c (by rw [heq]; exact hc)))
    next mw1 t1 heq =>
      split
      next e t2 heq2 =>
        intro c hc
        rcases List.mem_cons.mp hc with rfl | hc
        · exact Or.inl rfl
        rcases List.mem_append.mp hc with hc | hc
        · exact Or.inr (Or.inl (bgStage_calls E config mw c (by rw [heq]; exact hc)))
        · rcases resizeStage_calls E config vector mw1 c (by rw [heq2]; exact hc) with h | h
          · exact Or.inr (Or.inr (Or.inl h))
          · exact Or.inr (Or.inr (Or.inr (Or.inl h)))
      next mw2 t2 heq2 =>
        split
        next e t3 heq3 =>
          intro c hc
          rcases List.mem_cons.mp hc with rfl | hc
          · exact Or.inl rfl
          rcases List.mem_append.mp hc with hc | hc
          rcases List.mem_append.mp hc with hc | hc
          · exact Or.inr (Or.inl (bgStage_calls E config mw c (by rw [heq]; exact hc)))
          · rcases resizeStage_calls E config vector mw1 c (by rw [heq2]; exact hc) with h | h
            · exact Or.inr (Or.inr (Or.inl h))
            · exact Or.inr (Or.inr (Or.inr (Or.inl h)))
          · exact Or.inr (Or.inr (Or.inr (Or.inr
              (postStage_calls E mw2 c (by rw [heq3]; exact hc)))))
        next mw3 t3 heq3 =>
          intro c hc
          rcases List.mem_cons.mp hc with rfl | hc
          · exact Or.inl rfl
          rcases List.mem_append.mp hc with hc | hc
          rcases List.mem_append.mp hc with hc | hc
          · exact Or.inr (Or.inl (bgStage_calls E config mw c (by rw [heq]; exact hc)))
          · rcases resizeStage_calls E config vector mw1 c (by rw [heq2]; exact hc) with h | h
            · exact Or.inr (Or.inr (Or.inl h))
            · exact Or.inr (Or.inr (Or.inr (Or.inl h)))
          · exact Or.inr (Or.inr (Or.inr (Or.inr
              (postStage_calls E mw2 c (by rw [heq3]; exact hc)))))

theorem to_bmp_process_no_write {P W : Type} (E : Engine P W) (input : ImageResource W)
    (config : BMPConfig) :
    ∀ c ∈ (to_bmp_process E input config).2, c.isWriteCall = false := by
  intro c hc
  have h := to_bmp_process_calls E input config c hc
  cases c <;>
    simp_all [postCalls, EngineCall.isWriteCall, EngineCall.isBackgroundCall,
      EngineCall.isResizeCall, EngineCall.isSharpenCall]

/-! ### Decomposition of `to_bmp` -/

theorem to_bmp_eq_error {P W : Type} (E : Engine P W) (output input : ImageResource W)
    (config : BMPConfig) (e : Err) (t : List EngineCall)
    (h : to_bmp_process E input config = (.error e, t)) :
    to_bmp E output input config = (.error e, output, t) := by
  simp [to_bmp, h]

theorem to_bmp_eq_ok {P W : Type} (E : Engine P W) (output input : ImageResource W)
    (config : BMPConfig) (mw : W) (t : List EngineCall)
    (h : to_bmp_process E input config = (.ok mw, t)) :
    to_bmp E output input config =
      ((dispatchStage E output mw).1, (dispatchStage E output mw).2.1,
        t ++ (dispatchStage E output mw).2.2) := by
  rcases hd : dispatchStage E output mw with ⟨r, o, t2⟩
  simp [to_bmp, h, hd]

theorem to_bmp_result_of_process_error {P W : Type} (E : Engine P W)
    (output input : ImageResource W) (config : BMPConfig) (e : Err)
    (h : (to_bmp_process E input config).1 = .error e) :
    to_bmp_result E output input config = .error e := by
  rcases hp : to_bmp_process E input config with ⟨r, t⟩
  rw [hp] at h
  dsimp at h
  subst h
  rw [to_bmp_result, to_bmp_eq_error E output input config e t hp]

theorem to_bmp_result_of_dispatch {P W : Type} (E : Engine P W)
    (output input : ImageResource W) (config : BMPConfig) (mw : W) (t : List EngineCall)
    (h : to_bmp_process E input config = (.ok mw, t)) :
    to_bmp_result E output input config = (dispatchStage E output mw).1 := by
  rw [to_bmp_result, to_bmp_eq_ok E output input config mw t h]

theorem dispatchStage_error_output {P W : Type} (E : Engine P W)
    (output : ImageResource W) (mw : W) :
    ∀ e, (dispatchStage E output mw).1 = .error e →
      (dispatchStage E output mw).2.1 = output := by
  intro e
  rcases output with p | b | h
  · rcases hext : ends_with_caseless_ascii p ".bmp" with _ | _
    · simp [dispatchStage, hext]
    · rcases hw : E.write_image mw p with e' | u <;> simp [dispatchStage, hext, hw]
  · rcases hw : E.write_image_blob mw "BMP" with e' | temp <;> simp [dispatchStage, hw]
  · simp [dispatchStage]

theorem to_bmp_trace_mem {P W : Type} (E : Engine P W) (output input : ImageResource W)
    (config : BMPConfig) :
    ∀ c ∈ to_bmp_trace E output input config,
      c ∈ (to_bmp_process E input config).2 ∨ c.isWriteCall = true := by
  rcases hp : to_bmp_process E input config with ⟨r, t⟩
  rcases r with e | mw
  · rw [to_bmp_trace, to_bmp_eq_error E output input config e t hp]
    intro c hc
    exact Or.inl hc
  · rw [to_bmp_trace, to_bmp_eq_ok E output input config mw t hp]
    intro c hc
    rcases List.mem_append.mp hc with hc | hc
    · exact Or.inl hc
    · exact Or.inr (dispatchStage_calls E output mw c hc)

/-! ### First-error equations, one per fallible engine operation -/

theorem bgStage_fst_color_error {P W : Type} (E : Engine P W) (config : BMPConfig)
    (mw : W) (bc : ColorName) (e : Err)
    (hbc : config.background_color = some bc)
    (hsc : E.set_color E.new_pixel_wand bc.as_str = .error e) :
    (bgStage E config mw).1 = .error e := by
  simp [bgStage, hbc, hsc]

theorem bgStage_fst_background_error {P W : Type} (E : Engine P W) (config : BMPConfig)
    (mw : W) (bc : ColorName) (pw : P) (e : Err)
    (hbc : config.background_color = some bc)
    (hsc : E.set_color E.new_pixel_wand bc.as_str = .ok pw)
    (hbg : E.set_image_background_color mw pw = .error e) :
    (bgStage E config mw).1 = .error e := by
  simp [bgStage, hbc, hsc, hbg]

theorem bgStage_fst_alpha_error {P W : Type} (E : Engine P W) (config : BMPConfig)
    (mw : W) (bc : ColorName) (pw : P) (mwa : W) (e : Err)
    (hbc : config.background_color = some bc)
    (hsc : E.set_color E.new_pixel_wand bc.as_str = .ok pw)
    (hbg : E.set_image_background_color mw pw = .ok mwa)
    (ha : E.set_image_alpha_channel mwa .RemoveAlphaChannel = .error e) :
    (bgStage E config mw).1 = .error e := by
  simp [bgStage, hbc, hsc, hbg, ha]

theorem bgStage_eq_ok {P W : Type} (E : Engine P W) (config : BMPConfig)
    (mw : W) (bc : ColorName) (pw : P) (mwa mwb : W)
    (hbc : config.background_color = some bc)
    (hsc : E.set_color E.new_pixel_wand bc.as_str = .ok pw)
    (hbg : E.set_image_background_color mw pw = .ok mwa)
    (ha : E.set_image_alpha_channel mwa .RemoveAlphaChannel = .ok mwb) :
    bgStage E config mw =
      (.ok mwb, [.setColor bc.as_str, .setBackground, .removeAlpha]) := by
  simp [bgStage, hbc, hsc, hbg, ha]

theorem resizeStage_fst_sharpen_error {P W : Type} (E : Engine P W) (config : BMPConfig)
    (mw : W) (w h : Nat) (s : ℚ) (e : Err)
    (hc : E.compute_output_size_sharpen mw config = (w, h, s))
    (hsh : E.sharpen_image (E.resize_image mw w h .LanczosFilter) 0 s = .error e) :
    (resizeStage E config false mw).1 = .error e := by
  simp [resizeStage, hc, hsh]

theorem resizeStage_eq_ok {P W : Type} (E : Engine P W) (config : BMPConfig)
    (mw : W) (w h : Nat) (s : ℚ) (mw2 : W)
    (hc : E.compute_output_size_sharpen mw config = (w, h, s))
    (hsh : E.sharpen_image (E.resize_image mw w h .LanczosFilter) 0 s = .ok mw2) :
    resizeStage E config false mw =
      (.ok mw2, [.resize w h .LanczosFilter, .sharpen 0 s]) := by
  simp [resizeStage, hc, hsh]

theorem postStage_fst_profile_error {P W : Type} (E : Engine P W) (mw : W) (e : Err)
    (h : E.profile_image mw "*" none = .error e) :
    (postStage E mw).1 = .error e := by
  simp [postStage, h]

theorem postStage_fst_quality_error {P W : Type} (E : Engine P W) (mw mw1 : W) (e : Err)
    (h1 : E.profile_image mw "*" none = .ok mw1)
    (h2 : E.set_image_compression_quality mw1 100 = .error e) :
    (postStage E mw).1 = .error e := by
  simp [postStage, h1, h2]

theorem postStage_fst_interlace_error {P W : Type} (E : Engine P W) (mw mw1 mw2 : W)
    (e : Err)
    (h1 : E.profile_image mw "*" none = .ok mw1)
    (h2 : E.set_image_compression_quality mw1 100 = .ok mw2)
    (h3 : E.set_interlace_scheme mw2 .LineInterlace = .error e) :
    (postStage E mw).1 = .error e := by
  simp [postStage, h1, h2, h3]

theorem postStage_fst_format_error {P W : Type} (E : Engine P W) (mw mw1 mw2 mw3 : W)
    (e : Err)
    (h1 : E.profile_image mw "*" none = .ok mw1)
    (h2 : E.set_image_compression_quality mw1 100 = .ok mw2)
    (h3 : E.set_interlace_scheme mw2 .LineInterlace = .ok mw3)
    (h4 : E.set_image_format mw3 "BMP" = .error e) :
    (postStage E mw).1 = .error e := by
  simp [postStage, h1, h2, h3, h4]

theorem postStage_eq_ok {P W : Type} (E : Engine P W) (mw mw1 mw2 mw3 mw4 : W)
    (h1 : E.profile_image mw "*" none = .ok mw1)
    (h2 : E.set_image_compression_quality mw1 100 = .ok mw2)
    (h3 : E.set_interlace_scheme mw2 .LineInterlace = .ok mw3)
    (h4 : E.set_image_format mw3 "BMP" = .ok mw4) :
    postStage E mw = (.ok mw4, postCalls) := by
  simp [postStage, postCalls, h1, h2, h3, h4]

theorem to_bmp_process_fst_fetch_error {P W : Type} (E : Engine P W)
    (input : ImageResource W) (config : BMPConfig) (e : Err)
    (hf : E.fetch_magic_wand input config = .error e) :
    (to_bmp_process E input config).1 = .error e := by
  simp [to_bmp_process, hf]

theorem to_bmp_process_fst_bg_error {P W : Type} (E : Engine P W)
    (input : ImageResource W) (config : BMPConfig) (mw : W) (vector : Bool) (e : Err)
    (hf : E.fetch_magic_wand input config = .ok (mw, vector))
    (hbg : (bgStage E config mw).1 = .error e) :
    (to_bmp_process E input config).1 = .error e := by
  rcases hb : bgStage E config mw with ⟨r1, t1⟩
  rw [hb] at hbg
  dsimp at hbg
  subst hbg
  simp [to_bmp_process, hf, hb]

theorem to_bmp_process_fst_resize_error {P W : Type} (E : Engine P W)
    (input : ImageResource W) (config : BMPConfig) (mw : W) (vector : Bool)
    (mw1 : W) (t1 : List EngineCall) (e : Err)
    (hf : E.fetch_magic_wand input config = .ok (mw, vector))
    (hbg : bgStage E config mw = (.ok mw1, t1))
    (hr : (resizeStage E config vector mw1).1 = .error e) :
    (to_bmp_process E input config).1 = .error e := by
  rcases hrr : resizeStage E config vector mw1 with ⟨r2, t2⟩
  rw [hrr] at hr
  dsimp at hr
  subst hr
  simp [to_bmp_process, hf, hbg, hrr]

theorem to_bmp_process_fst_post_error {P W : Type} (E : Engine P W)
    (input : ImageResource W) (config : BMPConfig) (mw : W) (vector : Bool)
    (mw1 : W) (t1 : List EngineCall) (mw2 : W) (t2 : List EngineCall) (e : Err)
    (hf : E.fetch_magic_wand input config = .ok (mw, vector))
    (hbg : bgStage E config mw = (.ok mw1, t1))
    (hres : resizeStage E config vector mw1 = (.ok mw2, t2))
    (hps : (postStage E mw2).1 = .error e) :
    (to_bmp_process E input config).1 = .error e := by
  rcases hpp : postStage E mw2 with ⟨r3, t3⟩
  rw [hpp] at hps
  dsimp at hps
  subst hps
  simp [to_bmp_process, hf, hbg, hres, hpp]

theorem to_bmp_process_vector_no_resize {P W : Type} (E : Engine P W)
    (input : ImageResource W) (config : BMPConfig) (mw : W)
    (hf : E.fetch_magic_wand input config = .ok (mw, true)) :
    ∀ c ∈ (to_bmp_process E input config).2,
      c.isResizeCall = false ∧ c.isSharpenCall = false := by
  have hbg := bgStage_calls E config mw
  intro c hc
  unfold to_bmp_process at hc
  simp only [hf] at hc
  rcases hb : bgStage E config mw with ⟨r1, t1⟩
  rw [hb] at hbg
  rcases r1 with e | mw1 <;> simp only [hb] at hc
  · simp only [List.mem_cons] at hc
    rcases hc with rfl | hc
    · exact ⟨rfl, rfl⟩
    · have h := hbg c hc
      cases c <;> simp_all [EngineCall.isBackgroundCall, EngineCall.isResizeCall,
        EngineCall.isSharpenCall]
  · simp only [resizeStage_vector] at hc
    rcases hps : postStage E mw1 with ⟨r3, t3⟩
    have hpc := postStage_calls E mw1
    rw [hps] at hpc
    rcases r3 with e | mw3 <;> simp only [hps] at hc <;>
    · simp only [List.mem_cons, List.mem_append, List.append_nil, List.nil_append,
        List.not_mem_nil, or_false, false_or] at hc
      rcases hc with rfl | hc | hc
      · exact ⟨rfl, rfl⟩
      · have h := hbg c hc
        cases c <;> simp_all [EngineCall.isBackgroundCall, EngineCall.isResizeCall,
          EngineCall.isSharpenCall]
      · have h := hpc c hc
        cases c <;> simp_all [postCalls, EngineCall.isResizeCall,
          EngineCall.isSharpenCall]

theorem to_bmp_process_none_bg_calls {P W : Type} (E : Engine P W)
    (input : ImageResource W) (config : BMPConfig)
    (hn : config.background_color = none) :
    ∀ c ∈ (to_bmp_process E input config).2, c.isBackgroundCall = false := by
  intro c hc
  unfold to_bmp_process at hc
  rcases hfe : E.fetch_magic_wand input config with e | ⟨mw, vector⟩ <;>
    simp only [hfe] at hc
  · simp only [List.mem_cons, List.not_mem_nil, or_false] at hc
    subst hc
    rfl
  · simp only [bgStage_none E config mw hn] at hc
    have hrc := resizeStage_calls E config vector mw
    rcases hr : resizeStage E config vector mw with ⟨r2, t2⟩
    rw [hr] at hrc
    rcases r2 with e | mw2 <;> simp only [hr] at hc
    · simp only [List.mem_cons, List.mem_append, List.nil_append, List.not_mem_nil,
        false_or] at hc
      rcases hc with rfl | hc
      · rfl
      · have h := hrc c hc
        cases c <;> simp_all [EngineCall.isBackgroundCall, EngineCall.isResizeCall,
          EngineCall.isSharpenCall]
    · have hpc := postStage_calls E mw2
      rcases hps : postStage E mw2 with ⟨r3, t3⟩
      rw [hps] at hpc
      rcases r3 with e | mw3 <;> simp only [hps] at hc <;>
      · simp only [List.mem_cons, List.mem_append, List.nil_append, List.not_mem_nil,
          false_or] at hc
        rcases hc with rfl | hc | hc
        · rfl
        · have h := hrc c hc
          cases c <;> simp_all [EngineCall.isBackgroundCall, EngineCall.isResizeCall,
            EngineCall.isSharpenCall]
        · have h := hpc c hc
          cases c <;> simp_all [postCalls, EngineCall.isBackgroundCall]

theorem to_bmp_process_raster_trace {P W : Type} (E : Engine P W)
    (input : ImageResource W) (config : BMPConfig) (mw mw1 : W) (t1 : List EngineCall)
    (hf : E.fetch_magic_wand input config = .ok (mw, false))
    (hbg : bgStage E config mw = (.ok mw1, t1)) :
    ∃ post, (to_bmp_process E input config).2 =
      (.fetch :: t1) ++
        EngineCall.resize (E.compute_output_size_sharpen mw1 config).1
          (E.compute_output_size_sharpen mw1 config).2.1 FilterType.LanczosFilter ::
        EngineCall.sharpen 0 (E.compute_output_size_sharpen mw1 config).2.2 :: post := by
  unfold to_bmp_process
  simp only [hf, hbg]
  rcases hr : resizeStage E config false mw1 with ⟨r2, t2⟩
  have ht2 : t2 =
      [EngineCall.resize (E.compute_output_size_sharpen mw1 config).1
          (E.compute_output_size_sharpen mw1 config).2.1 FilterType.LanczosFilter,
        EngineCall.sharpen 0 (E.compute_output_size_sharpen mw1 config).2.2] := by
    have h := resizeStage_raster_trace E config mw1
    rw [hr] at h
    exact h
  subst ht2
  rcases r2 with e | mw2 <;> simp only [hr]
  · exact ⟨[], by simp⟩
  · rcases hps : postStage E mw2 with ⟨r3, t3⟩
    rcases r3 with e | mw3 <;> simp only [hps]
    · exact ⟨t3, by simp⟩
    · exact ⟨t3, by simp⟩

theorem mem_trace_of_mem_bg {P W : Type} (E : Engine P W)
    (output input : ImageResource W) (config : BMPConfig) (mw : W) (vector : Bool)
    (c : EngineCall)
    (hf : E.fetch_magic_wand input config = .ok (mw, vector))
    (hc : c ∈ (bgStage E config mw).2) :
    c ∈ to_bmp_trace E output input config := by
  rcases hb : bgStage E config mw with ⟨r1, t1⟩
  rw [hb] at hc
  rcases r1 with e | mw1
  · have hp : to_bmp_process E input config = (.error e, .fetch :: t1) := by
      simp [to_bmp_process, hf, hb]
    rw [to_bmp_trace, to_bmp_eq_error E output input config e _ hp]
    exact List.mem_cons_of_mem _ hc
  · rcases hr : resizeStage E config vector mw1 with ⟨r2, t2⟩
    rcases r2 with e | mw2
    · have hp : to_bmp_process E input config = (.error e, .fetch :: (t1 ++ t2)) := by
        simp [to_bmp_process, hf, hb, hr]
      rw [to_bmp_trace, to_bmp_eq_error E output input config e _ hp]
      exact List.mem_cons_of_mem _ (List.mem_append_left _ hc)
    · rcases hps : postStage E mw2 with ⟨r3, t3⟩
      rcases r3 with e | mw3
      · have hp : to_bmp_process E input config =
            (.error e, .fetch :: (t1 ++ t2 ++ t3)) := by
          simp [to_bmp_process, hf, hb, hr, hps]
        rw [to_bmp_trace, to_bmp_eq_error E output input config e _ hp]
        exact List.mem_cons_of_mem _
          (List.mem_append_left _ (List.mem_append_left _ hc))
      · have hp : to_bmp_process E input config =
            (.ok mw3, .fetch :: (t1 ++ t2 ++ t3)) := by
          simp [to_bmp_process, hf, hb, hr, hps]
        rw [to_bmp_trace, to_bmp_eq_ok E output input config mw3 _ hp]
        exact List.mem_append_left _ (List.mem_cons_of_mem _
          (List.mem_append_left _ (List.mem_append_left _ hc)))

theorem to_bmp_trace_post {P W : Type} (E : Engine P W)
    (output input : ImageResource W) (config : BMPConfig) (mw : W) (vector : Bool)
    (mw1 : W) (t1 : List EngineCall) (mw2 : W) (t2 : List EngineCall)
    (hf : E.fetch_magic_wand input config = .ok (mw, vector))
    (hbg : bgStage E config mw = (.ok mw1, t1))
    (hres : resizeStage E config vector mw1 = (.ok mw2, t2)) :
    ∃ pre post, to_bmp_trace E output input config =
      pre ++ (postStage E mw2).2 ++ post := by
  rcases hps : postStage E mw2 with ⟨r3, t3⟩
  rcases r3 with e | mw3
  · have hp : to_bmp_process E input config =
        (.error e, .fetch :: (t1 ++ t2 ++ t3)) := by
      simp [to_bmp_process, hf, hbg, hres, hps]
    rw [to_bmp_trace, to_bmp_eq_error E output input config e _ hp]
    exact ⟨.fetch :: (t1 ++ t2), [], by simp⟩
  · have hp : to_bmp_process E input config =
        (.ok mw3, .fetch :: (t1 ++ t2 ++ t3)) := by
      simp [to_bmp_process, hf, hbg, hres, hps]
    rw [to_bmp_trace, to_bmp_eq_ok E output input config mw3 _ hp]
    exact ⟨.fetch :: (t1 ++ t2), (dispatchStage E output mw3).2.2, by simp⟩

theorem to_bmp_process_eq_ok {P W : Type} (E : Engine P W)
    (input : ImageResource W) (config : BMPConfig) (mw : W) (vector : Bool)
    (mw1 : W) (t1 : List EngineCall) (mw2 : W) (t2 : List EngineCall)
    (mw3 : W) (t3 : List EngineCall)
    (hf : E.fetch_magic_wand input config = .ok (mw, vector))
    (hbg : bgStage E config mw = (.ok mw1, t1))
    (hres : resizeStage E config vector mw1 = (.ok mw2, t2))
    (hps : postStage E mw2 = (.ok mw3, t3)) :
    to_bmp_process E input config = (.ok mw3, .fetch :: (t1 ++ t2 ++ t3)) := by
  simp [to_bmp_process, hf, hbg, hres, hps]

/-! ### Concrete engines for instantiating the theorems -/

/-- A trivial engine over unit wands in which every operation succeeds.
`vector` fixes the classification reported by the loader. -/
def okEngine (vector : Bool) : Engine Unit Unit where
  fetch_magic_wand := fun _ _ => .ok ((), vector)
  new_pixel_wand := ()
  set_color := fun _ _ => .ok ()
  set_image_background_color := fun _ _ => .ok ()
  set_image_alpha_channel := fun _ _ => .ok ()
  compute_output_size_sharpen := fun _ _ => (120, 80, 0)
  resize_image := fun _ _ _ _ => ()
  sharpen_image := fun _ _ _ => .ok ()
  profile_image := fun _ _ _ => .ok ()
  set_image_compression_quality := fun _ _ => .ok ()
  set_interlace_scheme := fun _ _ => .ok ()
  set_image_format := fun _ _ => .ok ()
  write_image := fun _ _ => .ok ()
  write_image_blob := fun _ _ => .ok [66, 77, 0, 1]

/-- An engine whose loader fails. -/
def fetchFailEngine : Engine Unit Unit :=
  { okEngine false with fetch_magic_wand := fun _ _ => .error "load error" }

/-- An engine in which the named color cannot be resolved. -/
def colorFailEngine : Engine Unit Unit :=
  { okEngine false with set_color := fun _ _ => .error "color error" }

/-- An engine in which setting the background color fails. -/
def bgSetFailEngine : Engine Unit Unit :=
  { okEngine false with set_image_background_color := fun _ _ => .error "bg error" }

/-- An engine in which removing the alpha channel fails. -/
def alphaFailEngine : Engine Unit Unit :=
  { okEngine false with set_image_alpha_channel := fun _ _ => .error "alpha error" }

/-- An engine in which the sharpen pass fails. -/
def sharpenFailEngine : Engine Unit Unit :=
  { okEngine false with sharpen_image := fun _ _ _ => .error "sharpen error" }

/-- An engine in which profile stripping fails. -/
def profileFailEngine : Engine Unit Unit :=
  { okEngine false with profile_image := fun _ _ _ => .error "profile error" }

/-- An engine in which setting the compression quality fails. -/
def qualityFailEngine : Engine Unit Unit :=
  { okEngine false with set_image_compression_quality := fun _ _ => .error "quality error" }

/-- An engine in which setting the interlace scheme fails. -/
def interlaceFailEngine : Engine Unit Unit :=
  { okEngine false with set_interlace_scheme := fun _ _ => .error "interlace error" }

/-- An engine in which setting the format tag fails. -/
def formatFailEngine : Engine Unit Unit :=
  { okEngine false with set_image_format := fun _ _ => .error "format error" }

/-- An engine in which writing to a path fails. -/
def writePathFailEngine : Engine Unit Unit :=
  { okEngine false with write_image := fun _ _ => .error "write error" }

/-- An engine in which encoding to a blob fails. -/
def writeBlobFailEngine : Engine Unit Unit :=
  { okEngine false with write_image_blob := fun _ _ => .error "blob error" }

/-- A configuration with a background color. -/
def cfgBg : BMPConfig :=
  { BMPConfig.new with background_color := some ⟨"white"⟩ }

/-! ### The claims -/

/-- Claim C1: the resize+sharpen step is executed exactly when the loaded image
is classified raster.  For a vector-classified input no resize and no sharpen
call is ever issued, for any configuration and output target; for a
raster-classified input (once the background step has succeeded, so that the
step is reached) the trace contains the resize to the resolver's computed
dimensions immediately followed by a sharpen call at the computed amount, with
no special-casing of any amount (the near-zero baseline included). -/
theorem to_bmp_resize_sharpen_iff_raster {P W : Type} (E : Engine P W)
    (output input : ImageResource W) (config : BMPConfig) :
    (∀ mw, E.fetch_magic_wand input config = .ok (mw, true) →
      ∀ c ∈ to_bmp_trace E output input config,
        c.isResizeCall = false ∧ c.isSharpenCall = false) ∧
    (∀ mw mw1 t1, E.fetch_magic_wand input config = .ok (mw, false) →
      bgStage E config mw = (.ok mw1, t1) →
      ∃ pre post, to_bmp_trace E output input config =
        pre ++
          EngineCall.resize (E.compute_output_size_sharpen mw1 config).1
            (E.compute_output_size_sharpen mw1 config).2.1 FilterType.LanczosFilter ::
          EngineCall.sharpen 0 (E.compute_output_size_sharpen mw1 config).2.2 :: post) := by
  constructor
  · intro mw hf c hc
    rcases to_bmp_trace_mem E output input config c hc with h | h
    · exact to_bmp_process_vector_no_resize E input config mw hf c h
    · cases c <;> simp_all [EngineCall.isWriteCall, EngineCall.isResizeCall,
        EngineCall.isSharpenCall]
  · intro mw mw1 t1 hf hbg
    obtain ⟨post, hpt⟩ := to_bmp_process_raster_trace E input config mw mw1 t1 hf hbg
    rcases hp : to_bmp_process E input config with ⟨r, t⟩
    rw [hp] at hpt
    dsimp only at hpt
    rcases r with e | mw3
    · rw [to_bmp_trace, to_bmp_eq_error E output input config e t hp]
      exact ⟨.fetch :: t1, post, hpt⟩
    · rw [to_bmp_trace, to_bmp_eq_ok E output input config mw3 t hp]
      refine ⟨.fetch :: t1, post ++ (dispatchStage E output mw3).2.2, ?_⟩
      dsimp only
      rw [hpt]
      simp

/-- Witness for C1: with a concrete all-succeeding engine, the vector-classified
run issues no resize/sharpen call, and the raster-classified run's trace
contains the resize to the computed dimensions followed by the sharpen call at
the computed (baseline) amount. -/
theorem to_bmp_resize_sharpen_iff_raster_witness :
    (∀ c ∈ to_bmp_trace (okEngine true) (.Data []) (.Data [7]) BMPConfig.new,
      c.isResizeCall = false ∧ c.isSharpenCall = false) ∧
    (∃ pre post, to_bmp_trace (okEngine false) (.Data []) (.Data [7]) BMPConfig.new =
      pre ++ EngineCall.resize 120 80 .LanczosFilter ::
        EngineCall.sharpen 0 0 :: post) := by
  constructor
  · exact (to_bmp_resize_sharpen_iff_raster (okEngine true)
      (.Data []) (.Data [7]) BMPConfig.new).1 () rfl
  · exact (to_bmp_resize_sharpen_iff_raster (okEngine false)
      (.Data []) (.Data [7]) BMPConfig.new).2 () () [] rfl rfl

/-- Claim C2: for a `Path` output target, a path whose suffix is not
(ASCII-case-insensitively) ".bmp" makes `to_bmp` return the extension-mismatch
error — whenever the processing pipeline reaches the dispatch step — and the
engine's write-to-path operation is never invoked, for any run whatsoever; if
the suffix matches, the engine writes to exactly that path once dispatch is
reached. -/
theorem to_bmp_path_extension_check {P W : Type} (E : Engine P W)
    (input : ImageResource W) (config : BMPConfig) (p : String) :
    (ends_with_caseless_ascii p ".bmp" = false →
      (∀ q, EngineCall.writePath q ∉ to_bmp_trace E (.Path p) input config) ∧
      (∀ mw t, to_bmp_process E input config = (.ok mw, t) →
        to_bmp_result E (.Path p) input config =
          .error "The file extension name is not bmp.")) ∧
    (ends_with_caseless_ascii p ".bmp" = true →
      ∀ mw t, to_bmp_process E input config = (.ok mw, t) →
        EngineCall.writePath p ∈ to_bmp_trace E (.Path p) input config) := by
  constructor
  · intro hext
    constructor
    · intro q hq
      rcases hp : to_bmp_process E input config with ⟨r, t⟩
      rcases r with e | mw
      · rw [to_bmp_trace, to_bmp_eq_error E (.Path p) input config e t hp] at hq
        have hw := to_bmp_process_no_write E input config _ (by rw [hp]; exact hq)
        simp [EngineCall.isWriteCall] at hw
      · rw [to_bmp_trace, to_bmp_eq_ok E (.Path p) input config mw t hp] at hq
        have hd : dispatchStage E (.Path p) mw =
            (.error "The file extension name is not bmp.", .Path p, []) := by
          simp [dispatchStage, hext]
        rw [hd] at hq
        dsimp only at hq
        rw [List.append_nil] at hq
        have hw := to_bmp_process_no_write E input config _ (by rw [hp]; exact hq)
        simp [EngineCall.isWriteCall] at hw
    · intro mw t hp
      rw [to_bmp_result_of_dispatch E (.Path p) input config mw t hp]
      simp [dispatchStage, hext]
  · intro hext mw t hp
    rw [to_bmp_trace, to_bmp_eq_ok E (.Path p) input config mw t hp]
    have hd2 : (dispatchStage E (.Path p) mw).2.2 = [EngineCall.writePath p] := by
      rcases hw : E.write_image mw p with e | u <;> simp [dispatchStage, hext, hw]
    rw [hd2]
    simp

/-- Witness for C2: on a mismatched path "out.png" no write-to-path call is
issued and the mismatch error is returned; on the (case-insensitively)
matching path "out.BMP" the write call to that path is issued. -/
theorem to_bmp_path_extension_check_witness :
    (∀ q, EngineCall.writePath q ∉
      to_bmp_trace (okEngine false) (.Path "out.png") (.Data [7]) BMPConfig.new) ∧
    to_bmp_result (okEngine false) (.Path "out.png") (.Data [7]) BMPConfig.new =
      .error "The file extension name is not bmp." ∧
    EngineCall.writePath "out.BMP" ∈
      to_bmp_trace (okEngine false) (.Path "out.BMP") (.Data [7]) BMPConfig.new := by
  refine ⟨((to_bmp_path_extension_check (okEngine false) (.Data [7]) BMPConfig.new
      "out.png").1 (by decide)).1, ?_, ?_⟩
  · exact ((to_bmp_path_extension_check (okEngine false) (.Data [7]) BMPConfig.new
      "out.png").1 (by decide)).2 ()
      [.fetch, .resize 120 80 .LanczosFilter, .sharpen 0 0, .profileStrip,
        .setQuality 100, .setInterlace .LineInterlace, .setFormat "BMP"] rfl
  · exact (to_bmp_path_extension_check (okEngine false) (.Data [7]) BMPConfig.new
      "out.BMP").2 (by decide) ()
      [.fetch, .resize 120 80 .LanczosFilter, .sharpen 0 0, .profileStrip,
        .setQuality 100, .setInterlace .LineInterlace, .setFormat "BMP"] rfl

/-- Claim C3: the conversion is atomic with respect to its output target:
whenever `to_bmp` returns an error, the output resource is exactly the prior
one (a `Data` buffer keeps its bytes, a `MagickWand` slot keeps its handle, a
`Path` stays that path), and no write operation is ever issued before the
final dispatch step. -/
theorem to_bmp_error_leaves_output_unchanged {P W : Type} (E : Engine P W)
    (output input : ImageResource W) (config : BMPConfig) :
    (∀ e, to_bmp_result E output input config = .error e →
      to_bmp_output E output input config = output) ∧
    (∀ c ∈ (to_bmp_process E input config).2, c.isWriteCall = false) := by
  constructor
  · intro e he
    rcases hp : to_bmp_process E input config with ⟨r, t⟩
    rcases r with e' | mw
    · rw [to_bmp_output, to_bmp_eq_error E output input config e' t hp]
    · rw [to_bmp_result, to_bmp_eq_ok E output input config mw t hp] at he
      rw [to_bmp_output, to_bmp_eq_ok E output input config mw t hp]
      exact dispatchStage_error_output E output mw e he
  · exact to_bmp_process_no_write E input config

/-- Witness for C3: with an engine whose loader fails, the buffer target keeps
exactly its prior bytes. -/
theorem to_bmp_error_leaves_output_unchanged_witness :
    to_bmp_output fetchFailEngine (.Data [1, 2]) (.Data [7]) BMPConfig.new =
      .Data [1, 2] :=
  (to_bmp_error_leaves_output_unchanged fetchFailEngine (.Data [1, 2]) (.Data [7])
    BMPConfig.new).1 "load error" rfl

/-- Claim C4: every failure reported by an engine operation invoked by
`to_bmp` — load, color set, background set, alpha removal, sharpen, profile
strip, quality, interlace, format tag, write-to-path, write-to-blob — is
propagated verbatim as the function's error result whenever it is the first
failure in pipeline order (all earlier steps succeeded); no engine failure is
discarded.  (`resize_image` is infallible in the source — it is the one listed
operation that reports no failure.) -/
theorem to_bmp_propagates_first_error {P W : Type} (E : Engine P W)
    (output input : ImageResource W) (config : BMPConfig) :
    (∀ e, E.fetch_magic_wand input config = .error e →
      to_bmp_result E output input config = .error e) ∧
    (∀ mw vector, E.fetch_magic_wand input config = .ok (mw, vector) →
      (∀ bc, config.background_color = some bc →
        (∀ e, E.set_color E.new_pixel_wand bc.as_str = .error e →
          to_bmp_result E output input config = .error e) ∧
        (∀ pw, E.set_color E.new_pixel_wand bc.as_str = .ok pw →
          (∀ e, E.set_image_background_color mw pw = .error e →
            to_bmp_result E output input config = .error e) ∧
          (∀ mwa, E.set_image_background_color mw pw = .ok mwa →
            ∀ e, E.set_image_alpha_channel mwa .RemoveAlphaChannel = .error e →
              to_bmp_result E output input config = .error e))) ∧
      (∀ mw1 t1, bgStage E config mw = (.ok mw1, t1) →
        (∀ w h s e, vector = false →
          E.compute_output_size_sharpen mw1 config = (w, h, s) →
          E.sharpen_image (E.resize_image mw1 w h .LanczosFilter) 0 s = .error e →
          to_bmp_result E output input config = .error e) ∧
        (∀ mw2 t2, resizeStage E config vector mw1 = (.ok mw2, t2) →
          (∀ e, E.profile_image mw2 "*" none = .error e →
            to_bmp_result E output input config = .error e) ∧
          (∀ mw3, E.profile_image mw2 "*" none = .ok mw3 →
            (∀ e, E.set_image_compression_quality mw3 100 = .error e →
              to_bmp_result E output input config = .error e) ∧
            (∀ mw4, E.set_image_compression_quality mw3 100 = .ok mw4 →
              (∀ e, E.set_interlace_scheme mw4 .LineInterlace = .error e →
                to_bmp_result E output input config = .error e) ∧
              (∀ mw5, E.set_interlace_scheme mw4 .LineInterlace = .ok mw5 →
                (∀ e, E.set_image_format mw5 "BMP" = .error e →
                  to_bmp_result E output input config = .error e) ∧
                (∀ mw6, E.set_image_format mw5 "BMP" = .ok mw6 →
                  (∀ p e, output = .Path p →
                    ends_with_caseless_ascii p ".bmp" = true →
                    E.write_image mw6 p = .error e →
                    to_bmp_result E output input config = .error e) ∧
                  (∀ b e, output = .Data b →
                    E.write_image_blob mw6 "BMP" = .error e →
                    to_bmp_result E output input config = .error e)))))))) := by
  constructor
  · intro e hf
    exact to_bmp_result_of_process_error E output input config e
      (to_bmp_process_fst_fetch_error E input config e hf)
  · intro mw vector hf
    constructor
    · intro bc hbc
      constructor
      · intro e hsc
        exact to_bmp_result_of_process_error E output input config e
          (to_bmp_process_fst_bg_error E input config mw vector e hf
            (bgStage_fst_color_error E config mw bc e hbc hsc))
      · intro pw hsc
        constructor
        · intro e hbge
          exact to_bmp_result_of_process_error E output input config e
            (to_bmp_process_fst_bg_error E input config mw vector e hf
              (bgStage_fst_background_error E config mw bc pw e hbc hsc hbge))
        · intro mwa hbgo e ha
          exact to_bmp_result_of_process_error E output input config e
            (to_bmp_process_fst_bg_error E input config mw vector e hf
              (bgStage_fst_alpha_error E config mw bc pw mwa e hbc hsc hbgo ha))
    · intro mw1 t1 hbg
      constructor
      · intro w h s e hvec hcomp hsh
        subst hvec
        exact to_bmp_result_of_process_error E output input config e
          (to_bmp_process_fst_resize_error E input config mw false mw1 t1 e hf hbg
            (resizeStage_fst_sharpen_error E config mw1 w h s e hcomp hsh))
      · intro mw2 t2 hres
        constructor
        · intro e hpe
          exact to_bmp_result_of_process_error E output input config e
            (to_bmp_process_fst_post_error E input config mw vector mw1 t1 mw2 t2 e
              hf hbg hres (postStage_fst_profile_error E mw2 e hpe))
        · intro mw3 h1
          constructor
          · intro e h2
            exact to_bmp_result_of_process_error E output input config e
              (to_bmp_process_fst_post_error E input config mw vector mw1 t1 mw2 t2 e
                hf hbg hres (postStage_fst_quality_error E mw2 mw3 e h1 h2))
          · intro mw4 h2
            constructor
            · intro e h3
              exact to_bmp_result_of_process_error E output input config e
                (to_bmp_process_fst_post_error E input config mw vector mw1 t1 mw2 t2 e
                  hf hbg hres (postStage_fst_interlace_error E mw2 mw3 mw4 e h1 h2 h3))
            · intro mw5 h3
              constructor
              · intro e h4
                exact to_bmp_result_of_process_error E output input config e
                  (to_bmp_process_fst_post_error E input config mw vector mw1 t1 mw2 t2 e
                    hf hbg hres
                    (postStage_fst_format_error E mw2 mw3 mw4 mw5 e h1 h2 h3 h4))
              · intro mw6 h4
                have hp : to_bmp_process E input config =
                    (.ok mw6, .fetch :: (t1 ++ t2 ++ postCalls)) :=
                  to_bmp_process_eq_ok E input config mw vector mw1 t1 mw2 t2 mw6
                    postCalls hf hbg hres (postStage_eq_ok E mw2 mw3 mw4 mw5 mw6 h1 h2 h3 h4)
                constructor
                · intro p e hout hext hw
                  subst hout
                  rw [to_bmp_result_of_dispatch E _ input config mw6 _ hp]
                  simp [dispatchStage, hext, hw]
                · intro b e hout hw
                  subst hout
                  rw [to_bmp_result_of_dispatch E _ input config mw6 _ hp]
                  simp [dispatchStage, hw]

/-- Witness for C4: eleven concrete engines, each failing at exactly one
pipeline operation, and `to_bmp` returns exactly that operation's error. -/
theorem to_bmp_propagates_first_error_witness :
    to_bmp_result fetchFailEngine (.Data []) (.Data [7]) BMPConfig.new =
      .error "load error" ∧
    to_bmp_result colorFailEngine (.Data []) (.Data [7]) cfgBg =
      .error "color error" ∧
    to_bmp_result bgSetFailEngine (.Data []) (.Data [7]) cfgBg =
      .error "bg error" ∧
    to_bmp_result alphaFailEngine (.Data []) (.Data [7]) cfgBg =
      .error "alpha error" ∧
    to_bmp_result sharpenFailEngine (.Data []) (.Data [7]) BMPConfig.new =
      .error "sharpen error" ∧
    to_bmp_result profileFailEngine (.Data []) (.Data [7]) BMPConfig.new =
      .error "profile error" ∧
    to_bmp_result qualityFailEngine (.Data []) (.Data [7]) BMPConfig.new =
      .error "quality error" ∧
    to_bmp_result interlaceFailEngine (.Data []) (.Data [7]) BMPConfig.new =
      .error "interlace error" ∧
    to_bmp_result formatFailEngine (.Data []) (.Data [7]) BMPConfig.new =
      .error "format error" ∧
    to_bmp_result writePathFailEngine (.Path "x.bmp") (.Data [7]) BMPConfig.new =
      .error "write error" ∧
    to_bmp_result writeBlobFailEngine (.Data []) (.Data [7]) BMPConfig.new =
      .error "blob error" := by
  refine ⟨?_, ?_, ?_, ?_, ?_, ?_, ?_, ?_, ?_, ?_, ?_⟩
  · exact (to_bmp_propagates_first_error fetchFailEngine (.Data []) (.Data [7])
      BMPConfig.new).1 "load error" rfl
  · exact ((((to_bmp_propagates_first_error colorFailEngine (.Data []) (.Data [7])
      cfgBg).2 () false rfl).1 ⟨"white"⟩ rfl).1) "color error" rfl
  · exact (((((to_bmp_propagates_first_error bgSetFailEngine (.Data []) (.Data [7])
      cfgBg).2 () false rfl).1 ⟨"white"⟩ rfl).2 () rfl).1) "bg error" rfl
  · exact (((((to_bmp_propagates_first_error alphaFailEngine (.Data []) (.Data [7])
      cfgBg).2 () false rfl).1 ⟨"white"⟩ rfl).2 () rfl).2) () rfl "alpha error" rfl
  · exact ((((to_bmp_propagates_first_error sharpenFailEngine (.Data []) (.Data [7])
      BMPConfig.new).2 () false rfl).2 () [] rfl).1) 120 80 0 "sharpen error" rfl rfl rfl
  · exact (((((to_bmp_propagates_first_error profileFailEngine (.Data []) (.Data [7])
      BMPConfig.new).2 () false rfl).2 () [] rfl).2 ()
      [.resize 120 80 .LanczosFilter, .sharpen 0 0] rfl).1) "profile error" rfl
  · exact ((((((to_bmp_propagates_first_error qualityFailEngine (.Data []) (.Data [7])
      BMPConfig.new).2 () false rfl).2 () [] rfl).2 ()
      [.resize 120 80 .LanczosFilter, .sharpen 0 0] rfl).2 () rfl).1) "quality error" rfl
  · exact (((((((to_bmp_propagates_first_error interlaceFailEngine (.Data [])
      (.Data [7]) BMPConfig.new).2 () false rfl).2 () [] rfl).2 ()
      [.resize 120 80 .LanczosFilter, .sharpen 0 0] rfl).2 () rfl).2 () rfl).1)
      "interlace error" rfl
  · exact ((((((((to_bmp_propagates_first_error formatFailEngine (.Data [])
      (.Data [7]) BMPConfig.new).2 () false rfl).2 () [] rfl).2 ()
      [.resize 120 80 .LanczosFilter, .sharpen 0 0] rfl).2 () rfl).2 () rfl).2 () rfl).1)
      "format error" rfl
  · exact (((((((((to_bmp_propagates_first_error writePathFailEngine (.Path "x.bmp")
      (.Data [7]) BMPConfig.new).2 () false rfl).2 () [] rfl).2 ()
      [.resize 120 80 .LanczosFilter, .sharpen 0 0] rfl).2 () rfl).2 () rfl).2 ()
      rfl).2 () rfl).1) "x.bmp" "write error" rfl (by decide) rfl
  · exact (((((((((to_bmp_propagates_first_error writeBlobFailEngine (.Data [])
      (.Data [7]) BMPConfig.new).2 () false rfl).2 () [] rfl).2 ()
      [.resize 120 80 .LanczosFilter, .sharpen 0 0] rfl).2 () rfl).2 () rfl).2 ()
      rfl).2 () rfl).2) [] "blob error" rfl rfl

theorem bgStage_trace_setColor {P W : Type} (E : Engine P W) (config : BMPConfig)
    (mw : W) (bc : ColorName) (hbc : config.background_color = some bc) :
    EngineCall.setColor bc.as_str ∈ (bgStage E config mw).2 := by
  unfold bgStage
  simp only [hbc]
  split
  · simp
  · split
    · simp
    · split <;> simp

theorem bgStage_trace_setBackground {P W : Type} (E : Engine P W) (config : BMPConfig)
    (mw : W) (bc : ColorName) (pw : P)
    (hbc : config.background_color = some bc)
    (hsc : E.set_color E.new_pixel_wand bc.as_str = .ok pw) :
    EngineCall.setBackground ∈ (bgStage E config mw).2 := by
  unfold bgStage
  simp only [hbc, hsc]
  split
  · simp
  · split <;> simp

theorem bgStage_trace_removeAlpha {P W : Type} (E : Engine P W) (config : BMPConfig)
    (mw : W) (bc : ColorName) (pw : P) (mwa : W)
    (hbc : config.background_color = some bc)
    (hsc : E.set_color E.new_pixel_wand bc.as_str = .ok pw)
    (hbgo : E.set_image_background_color mw pw = .ok mwa) :
    EngineCall.removeAlpha ∈ (bgStage E config mw).2 := by
  unfold bgStage
  simp only [hbc, hsc, hbgo]
  split <;> simp

/-- Counterexample to claim C6 as stated: the claim says the background step
fails *exactly* when the named color cannot be resolved, but with this engine
the color resolves (`set_color` succeeds on "white") and the step still fails,
because the engine's background-set operation reports an error that the
pipeline propagates. -/
theorem to_bmp_background_step_counterexample :
    bgSetFailEngine.set_color bgSetFailEngine.new_pixel_wand
        (ColorName.mk "white").as_str = .ok () ∧
    to_bmp_result bgSetFailEngine (.Data []) (.Data [7]) cfgBg =
      .error "bg error" :=
  ⟨rfl, rfl⟩

/-- Claim C6 (amended): the background-compositing step runs iff
`background_color` is `some`: when it is `none` no background/alpha engine
call is issued at all; when it is `some bc` (and the load succeeded) the
pipeline issues `set_color` on the color's name, aborts with the resolver's
error when the color cannot be resolved, then sets the image background and
removes the alpha channel, aborting likewise if either of those engine
operations fails (not only on color-resolution failure); the step completes
iff all three succeed. -/
theorem to_bmp_background_step {P W : Type} (E : Engine P W)
    (output input : ImageResource W) (config : BMPConfig) :
    (config.background_color = none →
      ∀ c ∈ to_bmp_trace E output input config, c.isBackgroundCall = false) ∧
    (∀ bc mw vector, config.background_color = some bc →
      E.fetch_magic_wand input config = .ok (mw, vector) →
      EngineCall.setColor bc.as_str ∈ to_bmp_trace E output input config ∧
      (∀ e, E.set_color E.new_pixel_wand bc.as_str = .error e →
        to_bmp_result E output input config = .error e) ∧
      (∀ pw, E.set_color E.new_pixel_wand bc.as_str = .ok pw →
        EngineCall.setBackground ∈ to_bmp_trace E output input config ∧
        (∀ e, E.set_image_background_color mw pw = .error e →
          to_bmp_result E output input config = .error e) ∧
        (∀ mwa, E.set_image_background_color mw pw = .ok mwa →
          EngineCall.removeAlpha ∈ to_bmp_trace E output input config ∧
          (∀ e, E.set_image_alpha_channel mwa .RemoveAlphaChannel = .error e →
            to_bmp_result E output input config = .error e) ∧
          (∀ mwb, E.set_image_alpha_channel mwa .RemoveAlphaChannel = .ok mwb →
            bgStage E config mw =
              (.ok mwb, [.setColor bc.as_str, .setBackground, .removeAlpha]))))) := by
  constructor
  · intro hn c hc
    rcases to_bmp_trace_mem E output input config c hc with h | h
    · exact to_bmp_process_none_bg_calls E input config hn c h
    · cases c <;> simp_all [EngineCall.isWriteCall, EngineCall.isBackgroundCall]
  · intro bc mw vector hbc hf
    refine ⟨mem_trace_of_mem_bg E output input config mw vector _ hf
      (bgStage_trace_setColor E config mw bc hbc), ?_, ?_⟩
    · intro e hsc
      exact to_bmp_result_of_process_error E output input config e
        (to_bmp_process_fst_bg_error E input config mw vector e hf
          (bgStage_fst_color_error E config mw bc e hbc hsc))
    · intro pw hsc
      refine ⟨mem_trace_of_mem_bg E output input config mw vector _ hf
        (bgStage_trace_setBackground E config mw bc pw hbc hsc), ?_, ?_⟩
      · intro e hbge
        exact to_bmp_result_of_process_error E output input config e
          (to_bmp_process_fst_bg_error E input config mw vector e hf
            (bgStage_fst_background_error E config mw bc pw e hbc hsc hbge))
      · intro mwa hbgo
        refine ⟨mem_trace_of_mem_bg E output input config mw vector _ hf
          (bgStage_trace_removeAlpha E config mw bc pw mwa hbc hsc hbgo), ?_, ?_⟩
        · intro e ha
          exact to_bmp_result_of_process_error E output input config e
            (to_bmp_process_fst_bg_error E input config mw vector e hf
              (bgStage_fst_alpha_error E config mw bc pw mwa e hbc hsc hbgo ha))
        · intro mwb ha
          exact bgStage_eq_ok E config mw bc pw mwa mwb hbc hsc hbgo ha

/-- Witness for C6 (amended): with no background color no background call is
issued; with background "white" the color call is issued, a failing color
resolution aborts with its error, and when all three operations succeed the
step completes with exactly the three calls. -/
theorem to_bmp_background_step_witness :
    (∀ c ∈ to_bmp_trace (okEngine false) (.Data []) (.Data [7]) BMPConfig.new,
      c.isBackgroundCall = false) ∧
    EngineCall.setColor "white" ∈
      to_bmp_trace (okEngine false) (.Data []) (.Data [7]) cfgBg ∧
    to_bmp_result colorFailEngine (.Data []) (.Data [7]) cfgBg =
      .error "color error" ∧
    bgStage (okEngine false) cfgBg () =
      (.ok (), [.setColor "white", .setBackground, .removeAlpha]) := by
  refine ⟨(to_bmp_background_step (okEngine false) (.Data []) (.Data [7])
      BMPConfig.new).1 rfl, ?_, ?_, ?_⟩
  · exact ((to_bmp_background_step (okEngine false) (.Data []) (.Data [7]) cfgBg).2
      ⟨"white"⟩ () false rfl rfl).1
  · exact (((to_bmp_background_step colorFailEngine (.Data []) (.Data [7]) cfgBg).2
      ⟨"white"⟩ () false rfl rfl).2.1) "color error" rfl
  · exact (((((to_bmp_background_step (okEngine false) (.Data []) (.Data [7])
      cfgBg).2 ⟨"white"⟩ () false rfl rfl).2.2 () rfl).2.2 () rfl).2.2 () rfl)

/-- Claim C5: a successful conversion into a `Data` (buffer) target appends
the encoded blob to the buffer's prior contents: the final buffer is exactly
the prior bytes followed by the engine-encoded bytes. -/
theorem to_bmp_buffer_appends {P W : Type} (E : Engine P W)
    (input : ImageResource W) (config : BMPConfig) (b : List Nat)
    (hok : to_bmp_result E (.Data b) input config = .ok ()) :
    ∃ mw t temp, to_bmp_process E input config = (.ok mw, t) ∧
      E.write_image_blob mw "BMP" = .ok temp ∧
      to_bmp_output E (.Data b) input config = .Data (b ++ temp) := by
  rcases hp : to_bmp_process E input config with ⟨r, t⟩
  rcases r with e | mw
  · rw [to_bmp_result, to_bmp_eq_error E (.Data b) input config e t hp] at hok
    exact absurd hok (by simp)
  · rcases hw : E.write_image_blob mw "BMP" with e | temp
    · rw [to_bmp_result, to_bmp_eq_ok E (.Data b) input config mw t hp] at hok
      have hd : (dispatchStage E (.Data b) mw).1 = .error e := by
        simp [dispatchStage, hw]
      rw [hd] at hok

      exact absurd hok (by simp)
    · refine ⟨mw, t, temp, rfl, hw, ?_⟩
      rw [to_bmp_output, to_bmp_eq_ok E (.Data b) input config mw t hp]
      simp [dispatchStage, hw]

/-- Witness for C5: with the all-succeeding engine, converting into the buffer
`[9]` yields the prior byte followed by the encoded blob. -/
theorem to_bmp_buffer_appends_witness :
    ∃ mw t temp,
      to_bmp_process (okEngine false) (.Data [7]) BMPConfig.new = (.ok mw, t) ∧
      (okEngine false).write_image_blob mw "BMP" = .ok temp ∧
      to_bmp_output (okEngine false) (.Data [9]) (.Data [7]) BMPConfig.new =
        .Data ([9] ++ temp) :=
  to_bmp_buffer_appends (okEngine false) (.Data [7]) BMPConfig.new [9] rfl

theorem postStage_trace_profile {P W : Type} (E : Engine P W) (mw : W) :
    EngineCall.profileStrip ∈ (postStage E mw).2 := by
  unfold postStage
  split
  · simp
  · split
    · simp
    · split
      · simp
      · split <;> simp

theorem postStage_trace_quality {P W : Type} (E : Engine P W) (mw mw1 : W)
    (h1 : E.profile_image mw "*" none = .ok mw1) :
    EngineCall.setQuality 100 ∈ (postStage E mw).2 := by
  unfold postStage
  simp only [h1]
  split
  · simp
  · split
    · simp
    · split <;> simp

theorem postStage_trace_interlace {P W : Type} (E : Engine P W) (mw mw1 mw2 : W)
    (h1 : E.profile_image mw "*" none = .ok mw1)
    (h2 : E.set_image_compression_quality mw1 100 = .ok mw2) :
    EngineCall.setInterlace .LineInterlace ∈ (postStage E mw).2 := by
  unfold postStage
  simp only [h1, h2]
  split
  · simp
  · split <;> simp

theorem postStage_trace_format {P W : Type} (E : Engine P W) (mw mw1 mw2 mw3 : W)
    (h1 : E.profile_image mw "*" none = .ok mw1)
    (h2 : E.set_image_compression_quality mw1 100 = .ok mw2)
    (h3 : E.set_interlace_scheme mw2 .LineInterlace = .ok mw3) :
    EngineCall.setFormat "BMP" ∈ (postStage E mw).2 := by
  unfold postStage
  simp only [h1, h2, h3]
  split <;> simp

/-- Claim C7: every conversion that reaches the post-resize stages (load,
background and resize/sharpen all succeeded) issues the profile strip; as each
of the four settings operations succeeds, the next one — quality 100, line
interlace, the "BMP" format tag — is issued in turn; and when all four have
succeeded the trace contains the contiguous block
profile-strip, quality 100, line-interlace, format "BMP" in exactly that
order. -/
theorem to_bmp_post_stages_in_order {P W : Type} (E : Engine P W)
    (output input : ImageResource W) (config : BMPConfig)
    (mw : W) (vector : Bool) (mw1 : W) (t1 : List EngineCall) (mw2 : W)
    (t2 : List EngineCall)
    (hf : E.fetch_magic_wand input config = .ok (mw, vector))
    (hbg : bgStage E config mw = (.ok mw1, t1))
    (hres : resizeStage E config vector mw1 = (.ok mw2, t2)) :
    EngineCall.profileStrip ∈ to_bmp_trace E output input config ∧
    (∀ mw3, E.profile_image mw2 "*" none = .ok mw3 →
      EngineCall.setQuality 100 ∈ to_bmp_trace E output input config ∧
      (∀ mw4, E.set_image_compression_quality mw3 100 = .ok mw4 →
        EngineCall.setInterlace .LineInterlace ∈ to_bmp_trace E output input config ∧
        (∀ mw5, E.set_interlace_scheme mw4 .LineInterlace = .ok mw5 →
          EngineCall.setFormat "BMP" ∈ to_bmp_trace E output input config ∧
          (∀ mw6, E.set_image_format mw5 "BMP" = .ok mw6 →
            ∃ pre post, to_bmp_trace E output input config =
              pre ++ postCalls ++ post)))) := by
  obtain ⟨pre, post, hdec⟩ :=
    to_bmp_trace_post E output input config mw vector mw1 t1 mw2 t2 hf hbg hres
  have hmem : ∀ c ∈ (postStage E mw2).2, c ∈ to_bmp_trace E output input config := by
    intro c hc
    rw [hdec]
    exact List.mem_append_left _ (List.mem_append_right _ hc)
  refine ⟨hmem _ (postStage_trace_profile E mw2), ?_⟩
  intro mw3 h1
  refine ⟨hmem _ (postStage_trace_quality E mw2 mw3 h1), ?_⟩
  intro mw4 h2
  refine ⟨hmem _ (postStage_trace_interlace E mw2 mw3 mw4 h1 h2), ?_⟩
  intro mw5 h3
  refine ⟨hmem _ (postStage_trace_format E mw2 mw3 mw4 mw5 h1 h2 h3), ?_⟩
  intro mw6 h4
  refine ⟨pre, post, ?_⟩
  rw [hdec, postStage_eq_ok E mw2 mw3 mw4 mw5 mw6 h1 h2 h3 h4]

/-- Witness for C7: with the all-succeeding raster engine the profile strip is
issued and the trace contains the four post-resize calls as a contiguous
block in order. -/
theorem to_bmp_post_stages_in_order_witness :
    EngineCall.profileStrip ∈
      to_bmp_trace (okEngine false) (.Data []) (.Data [7]) BMPConfig.new ∧
    ∃ pre post, to_bmp_trace (okEngine false) (.Data []) (.Data [7]) BMPConfig.new =
      pre ++ postCalls ++ post := by
  have h := to_bmp_post_stages_in_order (okEngine false) (.Data []) (.Data [7])
    BMPConfig.new () false () [] () [.resize 120 80 .LanczosFilter, .sharpen 0 0]
    rfl rfl rfl
  exact ⟨h.1, (((h.2 () rfl).2 () rfl).2 () rfl).2 () rfl⟩

/-- Claim C8: a successful conversion into a `MagickWand` (native handle)
target overwrites the caller's handle slot with the fully processed wand, and
no serializing engine operation (write-to-path or write-to-blob) is issued
anywhere during the conversion. -/
theorem to_bmp_native_handle_overwrite {P W : Type} (E : Engine P W)
    (input : ImageResource W) (config : BMPConfig) (h0 : W)
    (hok : to_bmp_result E (.MagickWand h0) input config = .ok ()) :
    ∃ mw t, to_bmp_process E input config = (.ok mw, t) ∧
      to_bmp_output E (.MagickWand h0) input config = .MagickWand mw ∧
      ∀ c ∈ to_bmp_trace E (.MagickWand h0) input config, c.isWriteCall = false := by
  rcases hp : to_bmp_process E input config with ⟨r, t⟩
  rcases r with e | mw
  · rw [to_bmp_result, to_bmp_eq_error E (.MagickWand h0) input config e t hp] at hok
    exact absurd hok (by simp)
  · refine ⟨mw, t, rfl, ?_, ?_⟩
    · rw [to_bmp_output, to_bmp_eq_ok E (.MagickWand h0) input config mw t hp]
      simp [dispatchStage]
    · intro c hc
      rw [to_bmp_trace, to_bmp_eq_ok E (.MagickWand h0) input config mw t hp] at hc
      have hct : c ∈ t := by
        simpa [dispatchStage] using hc
      exact to_bmp_process_no_write E input config c (by rw [hp]; exact hct)

/-- Witness for C8: with the all-succeeding engine, the handle slot receives
the processed wand and no write operation appears in the trace. -/
theorem to_bmp_native_handle_overwrite_witness :
    ∃ mw t,
      to_bmp_process (okEngine false) (.Data [7]) BMPConfig.new = (.ok mw, t) ∧
      to_bmp_output (okEngine false) (.MagickWand ()) (.Data [7]) BMPConfig.new =
        .MagickWand mw ∧
      ∀ c ∈ to_bmp_trace (okEngine false) (.MagickWand ()) (.Data [7]) BMPConfig.new,
        c.isWriteCall = false :=
  to_bmp_native_handle_overwrite (okEngine false) (.Data [7]) BMPConfig.new () rfl

/-- Claim C9: `BMPConfig::new()` and `BMPConfig::default()` both produce
`{ width := 0, height := 0, shrink_only := true, sharpen := -1,
background_color := none }`, and the `ImageConfig` accessors return the
fields verbatim. -/
theorem BMPConfig_defaults_and_accessors :
    BMPConfig.new = ⟨0, 0, true, -1, none⟩ ∧
    BMPConfig.default = BMPConfig.new ∧
    ∀ c : BMPConfig, c.get_width = c.width ∧ c.get_height = c.height ∧
      c.get_sharpen = c.sharpen ∧ c.is_shrink_only = c.shrink_only :=
  ⟨rfl, rfl, fun _ => ⟨rfl, rfl, rfl, rfl⟩⟩

/-- Claim C10: the `Path` extension check happens only at the final dispatch
step: with a mismatched extension, the mismatch error is returned when the
whole processing pipeline succeeded, an earlier pipeline failure is returned
as that earlier error instead, and in either case the engine-call trace is
exactly the processing trace — all image processing is performed before the
extension is validated and dispatch adds no call. -/
theorem to_bmp_extension_checked_last {P W : Type} (E : Engine P W)
    (input : ImageResource W) (config : BMPConfig) (p : String)
    (hext : ends_with_caseless_ascii p ".bmp" = false) :
    (∀ mw t, to_bmp_process E input config = (.ok mw, t) →
      to_bmp_result E (.Path p) input config =
        .error "The file extension name is not bmp.") ∧
    (∀ e t, to_bmp_process E input config = (.error e, t) →
      to_bmp_result E (.Path p) input config = .error e) ∧
    to_bmp_trace E (.Path p) input config = (to_bmp_process E input config).2 := by
  refine ⟨?_, ?_, ?_⟩
  · intro mw t hp
    rw [to_bmp_result_of_dispatch E (.Path p) input config mw t hp]
    simp [dispatchStage, hext]
  · intro e t hp
    rw [to_bmp_result, to_bmp_eq_error E (.Path p) input config e t hp]
  · rcases hp : to_bmp_process E input config with ⟨r, t⟩
    rcases r with e | mw
    · rw [to_bmp_trace, to_bmp_eq_error E (.Path p) input config e t hp]
    · rw [to_bmp_trace, to_bmp_eq_ok E (.Path p) input config mw t hp]
      simp [dispatchStage, hext]

/-- Witness for C10: on the mismatched path "out.png", the all-succeeding
engine yields the extension-mismatch error, while an engine whose load fails
yields the load error instead. -/
theorem to_bmp_extension_checked_last_witness :
    to_bmp_result (okEngine false) (.Path "out.png") (.Data [7]) BMPConfig.new =
      .error "The file extension name is not bmp." ∧
    to_bmp_result fetchFailEngine (.Path "out.png") (.Data [7]) BMPConfig.new =
      .error "load error" := by
  constructor
  · exact (to_bmp_extension_checked_last (okEngine false) (.Data [7]) BMPConfig.new
      "out.png" (by decide)).1 ()
      [.fetch, .resize 120 80 .LanczosFilter, .sharpen 0 0, .profileStrip,
        .setQuality 100, .setInterlace .LineInterlace, .setFormat "BMP"] rfl
  · exact (to_bmp_extension_checked_last fetchFailEngine (.Data [7]) BMPConfig.new
      "out.png" (by decide)).2.1 "load error" [.fetch] rfl
